import Mathlib

/-!
Verification of the stem-separation demo (`stem_demo`): a shallow embedding of
`stem_demo/core/processor.py` (class `AudioProcessor`) and of the `separate`
Click command in `stem_demo/cli/separate.py`.

Modelling choices:
* File paths follow POSIX `pathlib` semantics: a parsed path is an
  `absolute` flag plus a list of components, with empty and `"."` components
  dropped, as `PurePosixPath` does.  The rarely-used double-slash root
  (`//a`) is rendered as a single slash.
* The filesystem is an explicit parameter `fs : PurePath → FSNode`
  (missing / regular file / other existing node), standing for the
  `Path.exists` / `Path.is_file` metadata reads.
* Python floats are modelled as rationals (`Rat`); `time.time()` readings
  are replaced by an explicit `duration` parameter, since wall-clock time is
  an input of the run, and `time.sleep` is a no-op for the values computed.
* The progress callback is modelled by its invocation trace: the list of
  `(step_description, progress_fraction)` pairs passed to it, in order.
* The `separate` command's interaction with the terminal is modelled as the
  list of message strings it emits; `sys.exit` codes become a result field
  (a normal return of the Click command is exit code 0).  Exceptions thrown
  during the `try` block are modelled by a `ProcOutcome` parameter carrying
  how many progress-callback invocations completed before the abort.
-/

/-- `missing`: `Path.exists()` is false; `regular`: an existing regular file
(`is_file()` true); `other`: an existing non-regular-file node such as a
directory (`exists()` true, `is_file()` false). -/
inductive FSNode
  | missing
  | regular
  | other
deriving DecidableEq, Repr

/-- A parsed POSIX path, as `pathlib.PurePosixPath` keeps it: a root flag and
the non-empty, non-`"."` components. -/
structure PurePath where
  absolute : Bool
  parts : List String
deriving DecidableEq, Repr

/-- Split a character list at every `'/'` (the pieces, in order; a list of
`n` slashes yields `n + 1` pieces). -/
def splitSlash : List Char → List (List Char)
  | [] => [[]]
  | c :: rest =>
    match splitSlash rest with
    | [] => [[c]]
    | h :: t => if c = '/' then [] :: h :: t else (c :: h) :: t

/-- `Path(file_path)`: split on `/`, drop empty and `"."` components, record
whether the string began with `/`. -/
def parsePath (s : String) : PurePath :=
  { absolute := match s.toList with
      | '/' :: _ => true
      | _ => false
  , parts := ((splitSlash s.toList).map String.mk).filter
      (fun c => !(c == "") && !(c == ".")) }

/-- `str(path)`: `/`-joined components, with `/` prefixed for absolute paths
and `"."` for the empty relative path. -/
def PurePath.toStr (p : PurePath) : String :=
  if p.absolute then "/" ++ String.intercalate "/" p.parts
  else if p.parts = [] then "." else String.intercalate "/" p.parts

/-- `path.name`: the final component, `""` when there is none. -/
def PurePath.name (p : PurePath) : String :=
  (p.parts.getLast?).getD ""

/-- `path.parent`: drop the final component. -/
def PurePath.parent (p : PurePath) : PurePath :=
  { p with parts := p.parts.dropLast }

/-- `parent / component`: append one slash-free component. -/
def PurePath.child (p : PurePath) (c : String) : PurePath :=
  { p with parts := p.parts ++ [c] }

/-- Index of the last `'.'` in a character list (`name.rfind('.')`, as an
`Option` instead of `-1`). -/
def rfindDot : List Char → Option Nat
  | [] => none
  | c :: rest =>
    match rfindDot rest with
    | some i => some (i + 1)
    | none => if c = '.' then some 0 else none

/-- `pathlib`'s suffix rule on a file name: the substring from the last dot
on, provided that dot is neither the first nor the last character; `""`
otherwise. -/
def nameSuffix (name : String) : String :=
  let cs := name.toList
  match rfindDot cs with
  | some i => if 0 < i ∧ i < cs.length - 1 then String.mk (cs.drop i) else ""
  | none => ""

/-- `pathlib`'s stem rule on a file name: the part before the suffix, or the
whole name when there is no suffix. -/
def nameStem (name : String) : String :=
  let cs := name.toList
  match rfindDot cs with
  | some i => if 0 < i ∧ i < cs.length - 1 then String.mk (cs.take i) else name
  | none => name

/-- `path.suffix`. -/
def PurePath.suffix (p : PurePath) : String := nameSuffix p.name

/-- `path.stem`. -/
def PurePath.stem (p : PurePath) : String := nameStem p.name

/-- `str.lower()` (ASCII case folding, which the membership test against the
all-ASCII extension set only depends on). -/
def strLower (s : String) : String := String.mk (s.toList.map Char.toLower)

/-- `AudioProcessor.SUPPORTED_EXTENSIONS` (a Python set literal, embedded as
the list of its elements in written order). -/
def SUPPORTED_EXTENSIONS : List String :=
  [".mp3", ".wav", ".flac", ".ogg", ".m4a"]

/-- `AudioProcessor.PROCESSING_STEPS`. -/
def PROCESSING_STEPS : List String :=
  [ "Loading audio file"
  , "Analyzing frequency spectrum"
  , "Separating vocals"
  , "Separating drums"
  , "Separating bass"
  , "Separating other instruments"
  , "Writing output files"
  ]

/-- Strict lexicographic comparison of character lists by code point, the
order Python uses to compare `str` values. -/
def charListLt : List Char → List Char → Bool
  | _, [] => false
  | [], _ :: _ => true
  | a :: as, b :: bs =>
    if a < b then true
    else if b < a then false
    else charListLt as bs

/-- Python's `s < t` on strings. -/
def pyStrLt (a b : String) : Bool := charListLt a.toList b.toList

/-- Python's `s <= t` on strings. -/
def pyStrLe (a b : String) : Bool := !(pyStrLt b a)

/-- Insert into a `<=`-sorted list of strings, keeping it sorted. -/
def insertSorted (x : String) : List String → List String
  | [] => [x]
  | y :: ys => if pyStrLe x y then x :: y :: ys else y :: insertSorted x ys

/-- Python's `sorted` on a collection of strings (insertion sort; the result
only depends on the multiset of elements). -/
def pySorted (l : List String) : List String := l.foldr insertSorted []

/-- `AudioProcessor.validate_audio_file`. -/
def validate_audio_file (fs : PurePath → FSNode) (file_path : String) :
    Bool × String :=
  let path := parsePath file_path
  if fs path = FSNode.missing then
    (false, "File not found: " ++ file_path)
  else if fs path ≠ FSNode.regular then
    (false, "Path is not a file: " ++ file_path)
  else if !(SUPPORTED_EXTENSIONS.contains (strLower path.suffix)) then
    let supported := String.intercalate ", " (pySorted SUPPORTED_EXTENSIONS)
    (false, "Unsupported file extension: " ++ path.suffix
      ++ "\nSupported formats: " ++ supported)
  else
    (true, "")

/-- `AudioProcessor.get_supported_formats`. -/
def get_supported_formats : List String := pySorted SUPPORTED_EXTENSIONS

/-- The local `stem_names` list of `process_audio`. -/
def stem_names : List String := ["vocals", "drums", "bass", "other"]

/-- `process_audio`'s result dictionary: `{"stems": ..., "duration": ...}`. -/
structure ProcessResult where
  stems : List String
  duration : Rat
deriving DecidableEq, Repr

/-- The body of `process_audio`'s `for i, step in enumerate(PROCESSING_STEPS)`
loop: returns the progress-callback trace and the `generated_stems`
accumulated over the given enumerated steps. -/
def processLoop (path : PurePath) (total : Nat) :
    List (Nat × String) → List (String × Rat) × List String
  | [] => ([], [])
  | (i, step) :: rest =>
    let progress : Rat := ((i : Rat) + 1) / (total : Rat)
    let stemsHere : List String :=
      if i = total - 1 then
        stem_names.map (fun sn =>
          (path.parent.child (path.stem ++ "_" ++ sn ++ path.suffix)).toStr)
      else []
    let restOut := processLoop path total rest
    ((step, progress) :: restOut.1, stemsHere ++ restOut.2)

/-- `AudioProcessor.process_audio`, returning the result dictionary together
with the trace of progress-callback invocations.  `duration` abstracts the
`time.time()` difference measured around the loop. -/
def process_audio (file_path : String) (duration : Rat) :
    ProcessResult × List (String × Rat) :=
  let total := PROCESSING_STEPS.length
  let path := parsePath file_path
  let out := processLoop path total PROCESSING_STEPS.enum
  ({ stems := out.2, duration := duration }, out.1)

/-- How the `try` block of the `separate` command terminates: `ok` — the run
completes; `interrupted k` — a `KeyboardInterrupt` lands after `k`
progress-callback invocations; `procError k msg` — some other exception with
text `msg` is raised after `k` invocations. -/
inductive ProcOutcome
  | ok
  | interrupted (k : Nat)
  | procError (k : Nat) (msg : String)
deriving DecidableEq, Repr

/-- Observable behaviour of one `separate` invocation: emitted message
strings, whether `process_audio` was entered, the progress-callback trace,
the stems list of the processing result (empty when no result was produced),
and the process exit code. -/
structure SeparateResult where
  output : List String
  processCalled : Bool
  progressTrace : List (String × Rat)
  stems : List String
  exitCode : Nat
deriving DecidableEq, Repr

/-- The `separate` Click command (`stem_demo/cli/separate.py`).  Terminal
rendering is abstracted to the message strings handed to the console
helpers; `outcome` tells how the `try` block ends and `dur` is the measured
duration of a completed run. -/
def separate (fs : PurePath → FSNode) (audio_file : String)
    (output_dir : Option String) (verbose : Bool)
    (outcome : ProcOutcome) (dur : Rat) : SeparateResult :=
  let header : List String :=
    if verbose then
      ["\n═══ Audio Stem Separator ═══\n", "Input file: " ++ audio_file] ++
        (match output_dir with
         | some d => ["Output directory: " ++ d]
         | none => [])
    else []
  let v := validate_audio_file fs audio_file
  if !v.1 then
    { output := header ++
        [ v.2
        , "\n[dim]Supported formats: "
            ++ String.intercalate ", " get_supported_formats ++ "[/dim]\n" ]
    , processCalled := false
    , progressTrace := []
    , stems := []
    , exitCode := 1 }
  else
    let procMsg := "Processing: " ++ (parsePath audio_file).name
    match outcome with
    | ProcOutcome.ok =>
      let run := process_audio audio_file dur
      let stemLines := String.intercalate "\n"
        (run.1.stems.map (fun s => "- " ++ (parsePath s).name))
      { output := header ++ [procMsg,
          "Successfully separated audio into "
            ++ toString run.1.stems.length ++ " stems\n"
            ++ "Processing time: " ++ toString run.1.duration ++ " seconds\n\n"
            ++ "Generated files:\n" ++ stemLines] ++
          (if verbose then run.1.stems else [])
      , processCalled := true
      , progressTrace := run.2
      , stems := run.1.stems
      , exitCode := 0 }
    | ProcOutcome.interrupted k =>
      { output := header ++ [procMsg, "Processing cancelled by user"]
      , processCalled := true
      , progressTrace := (process_audio audio_file dur).2.take k
      , stems := []
      , exitCode := 130 }
    | ProcOutcome.procError k msg =>
      { output := header ++ [procMsg,
          "An error occurred during processing: " ++ msg]
      , processCalled := true
      , progressTrace := (process_audio audio_file dur).2.take k
      , stems := []
      , exitCode := 1 }

/-! Helper lemmas shared by the claim theorems. -/

theorem string_append_data (s t : String) : (s ++ t).data = s.data ++ t.data :=
  rfl

theorem data_append_ne_nil (s t : String) (hs : s.data ≠ []) :
    (s ++ t).data ≠ [] := by
  rw [string_append_data]
  intro h
  exact hs (List.append_eq_nil.mp h).1

theorem string_append_ne_empty_left (s t : String) (hs : s.data ≠ []) :
    s ++ t ≠ "" := by
  intro h
  have hd : (s ++ t).data = [] := congrArg String.data h
  exact data_append_ne_nil s t hs hd

/-- The stems returned by `process_audio` are the four per-label paths built
under the input path's parent directory, whatever the input is. -/
theorem process_audio_stems_eq (p : String) (d : Rat) :
    (process_audio p d).1.stems =
      stem_names.map (fun sn =>
        ((parsePath p).parent.child
          ((parsePath p).stem ++ "_" ++ sn ++ (parsePath p).suffix)).toStr) :=
  rfl

/-- The progress-callback trace of `process_audio` is the same fixed list of
seven `(step, fraction)` pairs for every input. -/
theorem process_audio_trace_eq (p : String) (d : Rat) :
    (process_audio p d).2 =
      [ ("Loading audio file", (1 : Rat) / 7)
      , ("Analyzing frequency spectrum", (2 : Rat) / 7)
      , ("Separating vocals", (3 : Rat) / 7)
      , ("Separating drums", (4 : Rat) / 7)
      , ("Separating bass", (5 : Rat) / 7)
      , ("Separating other instruments", (6 : Rat) / 7)
      , ("Writing output files", (7 : Rat) / 7) ] := by
  simp only [process_audio, processLoop, PROCESSING_STEPS, List.enum,
    List.enumFrom]
  norm_num

/-- C1: `process_audio` invokes the progress callback exactly 7 times, once
per stage in the fixed `PROCESSING_STEPS` order, the `i`-th invocation
carrying fraction `(i+1)/7`, so the fractions strictly increase from `1/7`
to `7/7`; the whole trace is delivered by the time `process_audio` returns. -/
theorem c1_progress_callback_trace (p : String) (d : Rat) :
    (process_audio p d).2.map Prod.fst = PROCESSING_STEPS ∧
    (process_audio p d).2.length = 7 ∧
    (∀ i, i < 7 →
      ((process_audio p d).2.get? i).map Prod.snd = some (((i : Rat) + 1) / 7)) ∧
    List.Chain' (fun a b => a.2 < b.2) (process_audio p d).2 := by
  have htr := process_audio_trace_eq p d
  refine ⟨?_, ?_, ?_, ?_⟩
  · rw [htr]; decide
  · rw [htr]; rfl
  · intro i h
    rw [htr]
    interval_cases i <;> norm_num [List.get?]
  · rw [htr]
    simp only [List.chain'_cons, List.chain'_singleton, and_true]
    norm_num

/-- Closed instance of C1 at a concrete input: the third invocation (index
2) receives fraction `3/7`. -/
theorem c1_progress_callback_trace_witness :
    ((process_audio "song.mp3" 0).2.get? 2).map Prod.snd =
      some (((2 : Rat) + 1) / 7) :=
  (c1_progress_callback_trace "song.mp3" 0).2.2.1 2 (by decide)

/-- C7: `process_audio` is total — for every path string (validated or not)
and any abstracted run duration it returns a result holding a stems list
(of the four labels) and the duration, with the full 7-entry callback
trace; no internal error path exists. -/
theorem c7_process_audio_total (p : String) (d : Rat) :
    (process_audio p d).1.stems.length = 4 ∧
    (process_audio p d).1.duration = d ∧
    (process_audio p d).2.length = PROCESSING_STEPS.length :=
  ⟨rfl, rfl, rfl⟩

/-- C8: `get_supported_formats` returns exactly 5 entries, sorted strictly
lexicographically (hence duplicate-free): the supported-extension set in
sorted order. -/
theorem c8_supported_formats_sorted :
    get_supported_formats = [".flac", ".m4a", ".mp3", ".ogg", ".wav"] ∧
    get_supported_formats.length = 5 ∧
    get_supported_formats.Nodup ∧
    List.Chain' (fun a b => pyStrLt a b = true) get_supported_formats := by
  refine ⟨by decide, by decide, by decide, ?_⟩
  have h : get_supported_formats = [".flac", ".m4a", ".mp3", ".ogg", ".wav"] := by
    decide
  rw [h]
  simp only [List.chain'_cons, List.chain'_singleton, and_true]
  refine ⟨by decide, by decide, by decide, by decide⟩

/-- C2: for every input path, the `stems` entry of `process_audio`'s result
is exactly the four paths `parent / (base ++ "_" ++ label ++ extension)` in
the fixed label order vocals, drums, bass, other; only the final stage
(index `N-1`) synthesizes them (the loop run over the first `N-1` stages
accumulates no stems); input `"song.mp3"` yields the four sibling names
`song_vocals.mp3, song_drums.mp3, song_bass.mp3, song_other.mp3`. -/
theorem c2_stem_paths (p : String) (d : Rat) :
    (process_audio p d).1.stems =
      stem_names.map (fun sn =>
        ((parsePath p).parent.child
          ((parsePath p).stem ++ "_" ++ sn ++ (parsePath p).suffix)).toStr) ∧
    stem_names = ["vocals", "drums", "bass", "other"] ∧
    (process_audio p d).1.stems.length = 4 ∧
    (processLoop (parsePath p) PROCESSING_STEPS.length
        (PROCESSING_STEPS.enum.take (PROCESSING_STEPS.length - 1))).2 = [] ∧
    (process_audio "song.mp3" d).1.stems =
      ["song_vocals.mp3", "song_drums.mp3", "song_bass.mp3", "song_other.mp3"] := by
  refine ⟨process_audio_stems_eq p d, rfl, rfl, rfl, ?_⟩
  rw [process_audio_stems_eq "song.mp3" d]
  decide

/-- C3: `validate_audio_file` fails with a non-empty reason exactly when the
path is missing, or exists but is not a regular file, or its lower-cased
extension is not in the supported set; in every other case it returns valid
with an empty reason. -/
theorem c3_validate_partition (fs : PurePath → FSNode) (p : String) :
    ((validate_audio_file fs p).1 = false ∧ (validate_audio_file fs p).2 ≠ ""
      ↔ (fs (parsePath p) = FSNode.missing ∨
          (fs (parsePath p) ≠ FSNode.missing ∧
            fs (parsePath p) ≠ FSNode.regular) ∨
          strLower (parsePath p).suffix ∉ SUPPORTED_EXTENSIONS)) ∧
    ((validate_audio_file fs p).1 = true ∧ (validate_audio_file fs p).2 = ""
      ↔ (fs (parsePath p) = FSNode.regular ∧
          strLower (parsePath p).suffix ∈ SUPPORTED_EXTENSIONS)) := by
  have h1 : ("File not found: " ++ p) ≠ "" :=
    string_append_ne_empty_left _ _ (by decide)
  have h2 : ("Path is not a file: " ++ p) ≠ "" :=
    string_append_ne_empty_left _ _ (by decide)
  have h3 : ("Unsupported file extension: " ++ (parsePath p).suffix
      ++ "\nSupported formats: "
      ++ String.intercalate ", " (pySorted SUPPORTED_EXTENSIONS)) ≠ "" :=
    string_append_ne_empty_left _ _
      (data_append_ne_nil _ _ (data_append_ne_nil _ _ (by decide)))
  rcases hfs : fs (parsePath p) with _ | _ | _ <;>
    by_cases hm : strLower (parsePath p).suffix ∈ SUPPORTED_EXTENSIONS <;>
    simp [validate_audio_file, hfs, hm, h1, h2, h3]

/-- C4: on an existing regular file with an unsupported extension, the
failure reason is the unsupported-extension message whose format list is
the five supported extensions in strictly increasing lexicographic order:
`.flac, .m4a, .mp3, .ogg, .wav`. -/
theorem c4_unsupported_reason_sorted (fs : PurePath → FSNode) (p : String)
    (hreg : fs (parsePath p) = FSNode.regular)
    (hext : strLower (parsePath p).suffix ∉ SUPPORTED_EXTENSIONS) :
    (validate_audio_file fs p).1 = false ∧
    (validate_audio_file fs p).2 =
      "Unsupported file extension: " ++ (parsePath p).suffix
        ++ "\nSupported formats: " ++ ".flac, .m4a, .mp3, .ogg, .wav" ∧
    pySorted SUPPORTED_EXTENSIONS = [".flac", ".m4a", ".mp3", ".ogg", ".wav"] ∧
    List.Chain' (fun a b => pyStrLt a b = true)
      (pySorted SUPPORTED_EXTENSIONS) := by
  have hsup : String.intercalate ", " (pySorted SUPPORTED_EXTENSIONS) =
      ".flac, .m4a, .mp3, .ogg, .wav" := by decide
  refine ⟨?_, ?_, by decide, ?_⟩
  · simp [validate_audio_file, hreg, hext]
  · simp [validate_audio_file, hreg, hext, hsup]
  · have h : pySorted SUPPORTED_EXTENSIONS =
        [".flac", ".m4a", ".mp3", ".ogg", ".wav"] := by decide
    rw [h]
    simp only [List.chain'_cons, List.chain'_singleton, and_true]
    refine ⟨by decide, by decide, by decide, by decide⟩

/-- Closed instance of C4: an existing regular file named `song.xyz` draws
the sorted-format message. -/
theorem c4_unsupported_reason_sorted_witness :
    (validate_audio_file (fun _ => FSNode.regular) "song.xyz").1 = false ∧
    (validate_audio_file (fun _ => FSNode.regular) "song.xyz").2 =
      "Unsupported file extension: " ++ (parsePath "song.xyz").suffix
        ++ "\nSupported formats: " ++ ".flac, .m4a, .mp3, .ogg, .wav" ∧
    pySorted SUPPORTED_EXTENSIONS = [".flac", ".m4a", ".mp3", ".ogg", ".wav"] ∧
    List.Chain' (fun a b => pyStrLt a b = true)
      (pySorted SUPPORTED_EXTENSIONS) :=
  c4_unsupported_reason_sorted (fun _ => FSNode.regular) "song.xyz"
    (by decide) (by decide)

/-- C10: an existing regular file whose name has no extension in the
`pathlib` sense (no dot, or a dot only as the leading character) is
rejected with the unsupported-extension reason in which the reported
extension is empty; in particular `"song"`, `".mp3"` and `"dir/.mp3"` all
have empty suffix even though two of them end in a supported extension. -/
theorem c10_empty_suffix_rejected (fs : PurePath → FSNode) (p : String)
    (hreg : fs (parsePath p) = FSNode.regular)
    (hsfx : (parsePath p).suffix = "") :
    validate_audio_file fs p =
      (false, "Unsupported file extension: \nSupported formats: "
        ++ ".flac, .m4a, .mp3, .ogg, .wav") ∧
    (parsePath "song").suffix = "" ∧
    (parsePath ".mp3").suffix = "" ∧
    (parsePath "dir/.mp3").suffix = "" := by
  have hsup : String.intercalate ", " (pySorted SUPPORTED_EXTENSIONS) =
      ".flac, .m4a, .mp3, .ogg, .wav" := by decide
  refine ⟨?_, by decide, by decide, by decide⟩
  have hm : strLower (parsePath p).suffix ∉ SUPPORTED_EXTENSIONS := by
    rw [hsfx]; decide
  simp [validate_audio_file, hreg, hm, hsfx, hsup]
  decide

/-- Closed instance of C10: a regular file literally named `.mp3` is
rejected with the empty reported extension. -/
theorem c10_empty_suffix_rejected_witness :
    validate_audio_file (fun _ => FSNode.regular) ".mp3" =
      (false, "Unsupported file extension: \nSupported formats: "
        ++ ".flac, .m4a, .mp3, .ogg, .wav") ∧
    (parsePath "song").suffix = "" ∧
    (parsePath ".mp3").suffix = "" ∧
    (parsePath "dir/.mp3").suffix = "" :=
  c10_empty_suffix_rejected (fun _ => FSNode.regular) ".mp3"
    (by decide) (by decide)

/-- C5: the `separate` command exits 0 exactly on a validated run that
completes, 130 exactly on a user interrupt during a validated run, and 1
exactly when validation fails or an unhandled processing exception occurs. -/
theorem c5_exit_codes (fs : PurePath → FSNode) (p : String)
    (dir : Option String) (verbose : Bool) (outcome : ProcOutcome) (d : Rat) :
    ((separate fs p dir verbose outcome d).exitCode = 0 ↔
      (validate_audio_file fs p).1 = true ∧ outcome = ProcOutcome.ok) ∧
    ((separate fs p dir verbose outcome d).exitCode = 130 ↔
      (validate_audio_file fs p).1 = true ∧
        ∃ k, outcome = ProcOutcome.interrupted k) ∧
    ((separate fs p dir verbose outcome d).exitCode = 1 ↔
      ((validate_audio_file fs p).1 = false ∨
        ∃ k m, outcome = ProcOutcome.procError k m)) := by
  cases hv : (validate_audio_file fs p).1 <;>
    cases outcome <;>
    simp [separate, hv]

/-- C6: when validation rejects the path, `separate` emits the specific
validation error message and the supported-formats hint, exits with code 1
(non-zero), and attempts no processing: `process_audio` is not entered and
the progress callback is never invoked. -/
theorem c6_invalid_skips_processing (fs : PurePath → FSNode) (p : String)
    (dir : Option String) (verbose : Bool) (outcome : ProcOutcome) (d : Rat)
    (hinv : (validate_audio_file fs p).1 = false) :
    (separate fs p dir verbose outcome d).processCalled = false ∧
    (separate fs p dir verbose outcome d).progressTrace = [] ∧
    (separate fs p dir verbose outcome d).exitCode = 1 ∧
    (validate_audio_file fs p).2 ∈ (separate fs p dir verbose outcome d).output ∧
    ("\n[dim]Supported formats: .flac, .m4a, .mp3, .ogg, .wav[/dim]\n")
      ∈ (separate fs p dir verbose outcome d).output := by
  have hfmt : "\n[dim]Supported formats: "
      ++ String.intercalate ", " get_supported_formats ++ "[/dim]\n" =
      "\n[dim]Supported formats: .flac, .m4a, .mp3, .ogg, .wav[/dim]\n" := by
    decide
  refine ⟨?_, ?_, ?_, ?_, ?_⟩ <;> simp [separate, hinv, hfmt]

/-- Closed instance of C6: a missing file named `nope.mp3`. -/
theorem c6_invalid_skips_processing_witness :
    (separate (fun _ => FSNode.missing) "nope.mp3" none false ProcOutcome.ok 0).processCalled
      = false ∧
    (separate (fun _ => FSNode.missing) "nope.mp3" none false ProcOutcome.ok 0).progressTrace
      = [] ∧
    (separate (fun _ => FSNode.missing) "nope.mp3" none false ProcOutcome.ok 0).exitCode
      = 1 ∧
    (validate_audio_file (fun _ => FSNode.missing) "nope.mp3").2
      ∈ (separate (fun _ => FSNode.missing) "nope.mp3" none false ProcOutcome.ok 0).output ∧
    ("\n[dim]Supported formats: .flac, .m4a, .mp3, .ogg, .wav[/dim]\n")
      ∈ (separate (fun _ => FSNode.missing) "nope.mp3" none false ProcOutcome.ok 0).output :=
  c6_invalid_skips_processing (fun _ => FSNode.missing) "nope.mp3" none false
    ProcOutcome.ok 0 (by decide)

/-- C9: the `--output-dir` option never influences the computed stems — two
runs differing only in that option produce identical stems lists — and on a
completed validated run the stems are the four label paths rooted at the
input path's parent directory, since the option is never forwarded to
`process_audio`. -/
theorem c9_output_dir_no_effect (fs : PurePath → FSNode) (p : String)
    (d1 d2 : Option String) (verbose : Bool) (outcome : ProcOutcome)
    (dur : Rat) :
    (separate fs p d1 verbose outcome dur).stems =
      (separate fs p d2 verbose outcome dur).stems ∧
    ((validate_audio_file fs p).1 = true → outcome = ProcOutcome.ok →
      (separate fs p d1 verbose outcome dur).stems =
        stem_names.map (fun sn =>
          ((parsePath p).parent.child
            ((parsePath p).stem ++ "_" ++ sn ++ (parsePath p).suffix)).toStr)) := by
  constructor
  · cases hv : (validate_audio_file fs p).1 <;>
      cases outcome <;>
      simp [separate, hv]
  · intro hv hok
    subst hok
    simp only [separate, hv, Bool.not_true, Bool.false_eq_true, if_false]
    exact process_audio_stems_eq p dur

/-- Closed instance of C9: a validated completed run on `song.mp3` yields
the four sibling stem names whatever `--output-dir` was. -/
theorem c9_output_dir_no_effect_witness :
    (separate (fun _ => FSNode.regular) "song.mp3" (some "out") false
        ProcOutcome.ok 0).stems =
      stem_names.map (fun sn =>
        ((parsePath "song.mp3").parent.child
          ((parsePath "song.mp3").stem ++ "_" ++ sn
            ++ (parsePath "song.mp3").suffix)).toStr) :=
  (c9_output_dir_no_effect (fun _ => FSNode.regular) "song.mp3" (some "out")
    none false ProcOutcome.ok 0).2 (by decide) rfl
